import Mathlib

/-!
Shallow embedding of the session-management core of
`src/components/LiveInterview.tsx` (the `LiveInterview` React component).

The component's mutable refs and React state are collected into one record,
`LiveState`. Each event handler of the source (`cleanup`, the synchronous
prefix of `connect`, the continuations of `connect` after each `await`,
`onopen`, `onmessage`, `onerror`, `onaudioprocess`) becomes a pure state
transformer. Times are rationals (the audio clock), opaque handles
(audio sources, session promises, stream tracks, animation frames) are
natural-number ids, and the two `AudioContext`s are `Option CtxState`
(`none` = the ref is still null).
-/

/-- The `connectionState` React state: 'connecting' | 'connected' | 'error' | 'ended'. -/
inductive ConnState where
  | connecting
  | connected
  | error
  | ended
deriving DecidableEq, Repr

/-- The lifecycle state of a Web Audio `AudioContext`. -/
inductive CtxState where
  | running
  | suspended
  | closed
deriving DecidableEq, Repr

/-- All mutable state of the `LiveInterview` component: the React `useState`
values (`isMuted`, `audioLevel`, `status`, `connectionState`) and the refs
(`nextStartTimeRef`, `sourcesRef`, `sessionPromiseRef`, `mountedRef`,
`isConnectedRef`, `currentConnectionIdRef`, `isErrorRef`, `retryCountRef`,
`retryTimeoutRef`, `streamRef`, `processorRef`, `inputSourceRef`,
`audioContextRef`, `inputContextRef`, `animationFrameRef`).

`sources` holds the ids of scheduled `AudioBufferSourceNode`s still in
`sourcesRef`; `stoppedSources` records every id on which `.stop()` was
called (the source only calls `stop` and drops the handle, so we log the
stops to state the flush property). `stream` is the number of live tracks
of the retained `MediaStream` (`none` = ref is null; stopping tracks maps
the count to 0, the ref itself is kept, as in the source).
`lastScheduledStart` records the start time passed to the most recent
`source.start(...)` call. `retryTimeout` holds the delay (ms) of the
pending retry timer, `pendingAnimationFrame` the pending rAF callback. -/
structure LiveState where
  isMuted : Bool
  audioLevel : ℚ
  status : String
  connectionState : ConnState
  nextStartTime : ℚ
  sources : List ℕ
  stoppedSources : List ℕ
  lastScheduledStart : Option ℚ
  sessionPromise : Option ℕ
  mounted : Bool
  isConnected : Bool
  currentConnectionId : ℕ
  isError : Bool
  retryCount : ℕ
  retryTimeout : Option ℕ
  stream : Option ℕ
  processorConnected : Bool
  processorHandler : Bool
  inputSourceConnected : Bool
  outputCtx : Option CtxState
  inputCtx : Option CtxState
  pendingAnimationFrame : Option ℕ
deriving DecidableEq, Repr

/-- `MAX_RETRIES = 3` (line 43 of the source). -/
def MAX_RETRIES : ℕ := 3

/-- The initial ref/state values of the component (lines 14-46):
muted false, level 0, status 'Initializing...', state 'connecting',
cursor 0, empty source set, null session promise, mounted true (set in the
mount effect), not connected, empty connection id modelled as 0, no error,
retry count 0, no pending timer, all resource refs null. -/
def initState : LiveState where
  isMuted := false
  audioLevel := 0
  status := "Initializing..."
  connectionState := .connecting
  nextStartTime := 0
  sources := []
  stoppedSources := []
  lastScheduledStart := none
  sessionPromise := none
  mounted := true
  isConnected := false
  currentConnectionId := 0
  isError := false
  retryCount := 0
  retryTimeout := none
  stream := none
  processorConnected := false
  processorHandler := false
  inputSourceConnected := false
  outputCtx := none
  inputCtx := none
  pendingAnimationFrame := none

/-- `cleanup` (lines 48-107): set `isConnectedRef` false; clear a pending
retry timer; `stop()` every source in `sourcesRef` and clear the set; stop
every track of `streamRef` (the ref keeps the stream, its tracks go dead);
disconnect the processor and null its `onaudioprocess` handler; disconnect
the input source node; close both audio contexts if not already closed;
cancel a pending animation frame; detach `sessionPromiseRef` (set to null)
and close the session. Every release is wrapped in try/catch in the source,
so each is modelled as total. -/
def cleanup (s : LiveState) : LiveState :=
  { s with
    isConnected := false
    retryTimeout := none
    stoppedSources := s.stoppedSources ++ s.sources
    sources := []
    stream := s.stream.map (fun _ => 0)
    processorConnected := false
    processorHandler := false
    inputSourceConnected := false
    outputCtx := s.outputCtx.map (fun _ => CtxState.closed)
    inputCtx := s.inputCtx.map (fun _ => CtxState.closed)
    pendingAnimationFrame := none
    sessionPromise := none }

/-- `true` iff the state holds no live resource: no scheduled playback
sources, no live media tracks, no connected audio nodes, no open audio
context, no pending retry timer, no retained session promise, no pending
animation frame, and the connected flag is down. -/
def zeroLiveHandles (s : LiveState) : Bool :=
  s.sources.isEmpty &&
  s.stream.all (fun n => n == 0) &&
  !s.processorConnected &&
  !s.processorHandler &&
  !s.inputSourceConnected &&
  s.outputCtx.all (fun c => c == CtxState.closed) &&
  s.inputCtx.all (fun c => c == CtxState.closed) &&
  s.retryTimeout.isNone &&
  s.sessionPromise.isNone &&
  s.pendingAnimationFrame.isNone &&
  !s.isConnected

/-- The status string of line 130: retrying with the current count. -/
def retryingStatus (n : ℕ) : String :=
  "Connection disrupted. Retrying (" ++ toString n ++ "/" ++ toString MAX_RETRIES ++ ")..."

/-- The synchronous prefix of `connect(isRetry)` (lines 109-136): if the
API key is absent, set the missing-key status, enter the error state and
return (no device or network step runs). Otherwise: reset `retryCountRef`
to 0 when `isRetry` is false; draw a fresh `connectionId` and make it
current; run `cleanup()`; enter 'connecting', clear the error flag, set the
status; finally the `try` block's first line returns when unmounted, so the
returned flag is `s.mounted`: `true` means execution continues into the
`await getUserMedia` device-acquisition suspension. -/
def connectBegin (apiKey : Option String) (newCid : ℕ) (isRetry : Bool)
    (s : LiveState) : LiveState × Bool :=
  match apiKey with
  | none =>
      ({ s with status := "API Key missing. Please check configuration.",
                connectionState := .error }, false)
  | some _ =>
      let s1 := if isRetry then s else { s with retryCount := 0 }
      let s2 := { s1 with currentConnectionId := newCid }
      let s3 := cleanup s2
      let s4 := { s3 with
                    connectionState := .connecting
                    isError := false
                    status := if isRetry then retryingStatus s3.retryCount
                              else "Initializing audio..." }
      (s4, s4.mounted)

/-- The result of resuming one of `connect`'s suspended continuations:
the state it leaves behind, whether execution proceeds to the next step,
and whether the resource acquired just before the suspension point was
released on the abort path. -/
structure StepResult where
  state : LiveState
  proceed : Bool
  releasedAcquired : Bool
deriving DecidableEq, Repr

/-- The continuation of `connect` resumed after `await getUserMedia`
(lines 140-167): if the connection id is no longer current, stop the
tracks of the just-acquired stream and return (no shared ref is touched).
Otherwise store the stream in `streamRef` and create + resume the two
audio contexts (output 24kHz, input 16kHz), storing them in their refs;
`cid` is the `connectionId` local captured by this invocation. -/
def connectAfterMedia (cid : ℕ) (s : LiveState) : StepResult :=
  if s.currentConnectionId != cid then
    { state := s, proceed := false, releasedAcquired := true }
  else
    { state := { s with stream := some 1
                        outputCtx := some CtxState.running
                        inputCtx := some CtxState.running }
      proceed := true
      releasedAcquired := false }

/-- The continuation of `connect` resumed after the audio-context
`resume()` awaits (lines 170-360): line 170 re-checks only
`mountedRef.current` — not the connection id — and when mounted it builds
the `GoogleGenAI` client, calls `ai.live.connect(...)` (the remote open
handshake begins) and assigns the resulting promise to
`sessionPromiseRef.current` (line 359). `sessId` is the id of the freshly
created session promise. -/
def connectAfterCtxResume (cid sessId : ℕ) (s : LiveState) : StepResult :=
  if !s.mounted then
    { state := s, proceed := false, releasedAcquired := false }
  else
    { state := { s with sessionPromise := some sessId }
      proceed := true
      releasedAcquired := false }

/-- The `onopen` callback (lines 203-263): a late or superseded callback
(unmounted, or `connectionId` no longer current) is a no-op. Otherwise:
reset `retryCountRef` to 0, set status/state to connected, raise the
connected flag, and set up the input graph (media-stream source node and
script processor with its `onaudioprocess` handler). `setupOk = false`
models the catch branch (lines 255-263): the input setup threw, so drop
the connected flag, raise the error flag and enter the error state. -/
def onopen (cid : ℕ) (setupOk : Bool) (s : LiveState) : LiveState :=
  if !s.mounted || s.currentConnectionId != cid then s
  else
    let s1 := { s with retryCount := 0
                       status := "Interview in progress"
                       connectionState := .connected
                       isConnected := true }
    if setupOk then
      { s1 with inputSourceConnected := true
                processorConnected := true
                processorHandler := true }
    else
      { s1 with isConnected := false
                isError := true
                connectionState := .error
                status := "Audio setup failed." }

/-- `true` iff `pat` occurs as a substring of `msg` (the source uses
`String.prototype.includes`). -/
def containsStr (msg pat : String) : Bool :=
  (msg.splitOn pat).length != 1

/-- The error-message classification of lines 342-351, applied once the
retry budget is exhausted. `err = none` models a thrown value that is not
an `Error` instance, which keeps the default message. -/
def classifyError (err : Option String) : String :=
  match err with
  | some msg =>
      if containsStr msg "Network" then "Network error. Please check your connection."
      else if containsStr msg "401" || containsStr msg "permission" then
        "Unauthorized. Please check API Key."
      else if containsStr msg "503" then "Service unavailable. Try again later."
      else "Connection disrupted."
  | none => "Connection disrupted."

/-- The `onerror` callback (lines 319-355): a late or superseded callback
is a no-op. Otherwise drop the connected flag and raise the error flag;
then, if `retryCountRef < MAX_RETRIES`, increment the count, set the
reconnecting status and schedule a retry timer with delay
`1000 * retryCountRef` ms (the timer fires `connect(true)` when still
mounted); at budget, classify the error into the status message and enter
the terminal error state, scheduling nothing. -/
def onerror (cid : ℕ) (err : Option String) (s : LiveState) : LiveState :=
  if !s.mounted || s.currentConnectionId != cid then s
  else
    let s1 := { s with isConnected := false, isError := true }
    if s1.retryCount < MAX_RETRIES then
      { s1 with retryCount := s1.retryCount + 1
                status := "Reconnecting (Attempt " ++ toString (s1.retryCount + 1)
                          ++ "/" ++ toString MAX_RETRIES ++ ")..."
                retryTimeout := some (1000 * (s1.retryCount + 1)) }
    else
      { s1 with status := classifyError err, connectionState := .error }

/-- Mean of the squared samples of a captured frame; the handler's RMS
(lines 230-232) is its square root, `rms = sqrt (sum sq / length)`. -/
def meanSquare (frame : List ℚ) : ℚ :=
  ((frame.map (fun x => x * x)).sum) / (frame.length : ℚ)

/-- `r` is the RMS amplitude of `frame`: nonnegative and squaring to the
mean square. This characterises the handler's `Math.sqrt` exactly on the
rational inputs the theorems use. -/
def IsRMS (frame : List ℚ) (r : ℚ) : Prop :=
  0 ≤ r ∧ r * r = meanSquare frame

instance (frame : List ℚ) (r : ℚ) : Decidable (IsRMS frame r) := by
  unfold IsRMS; infer_instance

/-- The level update of line 233: `setAudioLevel(prev => Math.max(rms * 100, prev * 0.9))`. -/
def meterUpdate (rms level : ℚ) : ℚ :=
  max (rms * 100) (level * (9 / 10))

/-- The `onaudioprocess` handler (lines 223-251): when muted, or not
connected, or the connection id is stale, return before anything else
(no metering, no send). Otherwise compute RMS from the frame (passed here
as `r`), update the displayed level via `meterUpdate`, and — when
`sessionPromiseRef` is non-null and, inside the promise callback, the
connected flag is still up and the id still current — send the PCM frame.
The returned Bool is whether the frame reached `sendRealtimeInput`. -/
def onaudioprocess (cid : ℕ) (r : ℚ) (s : LiveState) : LiveState × Bool :=
  if s.isMuted || !s.isConnected || s.currentConnectionId != cid then (s, false)
  else
    let s1 := { s with audioLevel := meterUpdate r s.audioLevel }
    match s1.sessionPromise with
    | none => (s1, false)
    | some _ =>
        if s1.isConnected && s1.currentConnectionId == cid then (s1, true)
        else (s1, false)

/-- The audio branch of `onmessage` (lines 269-294), run when the message
carries inline audio data: if `audioContextRef` is null or closed, return;
otherwise `nextStartTime := max nextStartTime ctx.currentTime`, decode the
buffer (its duration is `dur`), start a new source node `srcId` at
`nextStartTime`, advance `nextStartTime` by the duration, and add the
handle to `sourcesRef` (its 'ended' listener removes it later). -/
def handleServerAudio (now dur : ℚ) (srcId : ℕ) (s : LiveState) : LiveState :=
  match s.outputCtx with
  | none => s
  | some ctx =>
      if ctx = CtxState.closed then s
      else
        let cursor := max s.nextStartTime now
        { s with nextStartTime := cursor + dur
                 lastScheduledStart := some cursor
                 sources := s.sources ++ [srcId] }

/-- The interrupt branch of `onmessage` (lines 297-306): `stop()` every
source in `sourcesRef`, clear the set, and — when `audioContextRef` is
non-null — reset `nextStartTimeRef` to the context's current time. -/
def handleInterrupt (now : ℚ) (s : LiveState) : LiveState :=
  let s1 := { s with stoppedSources := s.stoppedSources ++ s.sources
                     sources := [] }
  if s1.outputCtx.isSome then { s1 with nextStartTime := now } else s1

/-- The `onmessage` callback (lines 265-307): a late or superseded
callback is a no-op; otherwise handle an inline-audio payload
(`audio = some (duration, sourceId)`) and then an interruption flag, both
read from the same `LiveServerMessage`. `now` is the output clock's
current time during the handler. -/
def onmessage (cid : ℕ) (audio : Option (ℚ × ℕ)) (interrupted : Bool)
    (now : ℚ) (s : LiveState) : LiveState :=
  if !s.mounted || s.currentConnectionId != cid then s
  else
    let s1 := match audio with
      | some (dur, srcId) => handleServerAudio now dur srcId s
      | none => s
    if interrupted then handleInterrupt now s1 else s1

/-- Helper: `cleanup` is a retraction — running it twice equals running it
once. -/
theorem cleanup_cleanup (s : LiveState) : cleanup (cleanup s) = cleanup s := by
  simp [cleanup, Option.map_map, Function.comp]
  refine ⟨?_, ?_, ?_⟩
  · cases s.stream <;> rfl
  · cases s.outputCtx <;> rfl
  · cases s.inputCtx <;> rfl

/-- C6: for every call to `connect` while the API key is absent, the
controller sets the missing-key status, enters the error state, and
returns with `proceed = false`: the continuation that performs device
acquisition (`connectAfterMedia`, the code after `await getUserMedia`)
and the network handshake never runs, and no other field of the state —
epoch, retry count, resources — is touched. -/
theorem missing_key_early_error (s : LiveState) (cid : ℕ) (isRetry : Bool) :
    connectBegin none cid isRetry s =
      ({ s with status := "API Key missing. Please check configuration.",
                connectionState := ConnState.error }, false) := by
  rfl

/-- C8: teardown is idempotent and leaves zero live resource handles:
`cleanup (cleanup s) = cleanup s` for every state (in particular for
states already in Ended or after a prior teardown), and after `cleanup`
there are no scheduled playback sources, no live media tracks, no
connected audio nodes, no open audio context, no pending retry timer, no
retained session promise and no pending animation frame. -/
theorem cleanup_idempotent_and_releases (s : LiveState) :
    cleanup (cleanup s) = cleanup s ∧ zeroLiveHandles (cleanup s) = true := by
  refine ⟨cleanup_cleanup s, ?_⟩
  cases hs : s.stream <;> cases ho : s.outputCtx <;> cases hi : s.inputCtx <;>
    simp [cleanup, zeroLiveHandles, hs, ho, hi]

/-- C10: every invocation of `connect` with `isRetry = false` (the mount
effect's `connect()` and the manual-retry button's `connect(false)`) and
the API key present resets the retry counter to 0 before the attempt, and
installs the new connection id; consequently a subsequent transport error
schedules the first retry of a fresh budget, with delay 1000ms, rather
than inheriting an exhausted count. -/
theorem manual_retry_resets_budget (s : LiveState) (key : String) (cid : ℕ)
    (e : Option String) (hm : s.mounted = true) :
    (connectBegin (some key) cid false s).1.retryCount = 0 ∧
    (connectBegin (some key) cid false s).1.currentConnectionId = cid ∧
    (onerror cid e (connectBegin (some key) cid false s).1).retryTimeout = some 1000 := by
  simp [connectBegin, cleanup, onerror, MAX_RETRIES, hm]

/-- Witness for C10: a concrete run from an exhausted state
(retryCount = 3): the manual retry resets the budget and the next error
is retried after 1000ms. -/
theorem manual_retry_resets_budget_witness :
    ({ initState with retryCount := 3 } : LiveState).mounted = true ∧
    (connectBegin (some "k") 5 false { initState with retryCount := 3 }).1.retryCount = 0 ∧
    (connectBegin (some "k") 5 false { initState with retryCount := 3 }).1.currentConnectionId = 5 ∧
    (onerror 5 none (connectBegin (some "k") 5 false { initState with retryCount := 3 }).1).retryTimeout = some 1000 := by
  refine ⟨rfl, ?_⟩
  exact manual_retry_resets_budget { initState with retryCount := 3 } "k" 5 none rfl

/-- C5: a successful `onopen` for the current epoch resets the retry
counter to 0, whatever it was before; a transport error arriving after it
therefore schedules its first automatic retry with delay 1000ms rather
than continuing from the pre-open count. (This holds on both the
successful-setup and failed-setup branches of `onopen`, since the catch
branch runs after the reset.) -/
theorem open_resets_retry (s : LiveState) (cid : ℕ) (setupOk : Bool)
    (e : Option String) (hm : s.mounted = true)
    (hc : s.currentConnectionId = cid) :
    (onopen cid setupOk s).retryCount = 0 ∧
    (onerror cid e (onopen cid setupOk s)).retryTimeout = some 1000 := by
  cases setupOk <;> simp [onopen, onerror, MAX_RETRIES, hm, hc]

/-- Witness for C5: a concrete state with 2 accumulated failures; after a
successful open the count is 0 and the next error retries after 1000ms. -/
theorem open_resets_retry_witness :
    ({ initState with retryCount := 2, currentConnectionId := 9 } : LiveState).mounted = true ∧
    ({ initState with retryCount := 2, currentConnectionId := 9 } : LiveState).currentConnectionId = 9 ∧
    (onopen 9 true { initState with retryCount := 2, currentConnectionId := 9 }).retryCount = 0 ∧
    (onerror 9 (some "Network down") (onopen 9 true { initState with retryCount := 2, currentConnectionId := 9 })).retryTimeout = some 1000 := by
  refine ⟨rfl, rfl, ?_⟩
  exact open_resets_retry { initState with retryCount := 2, currentConnectionId := 9 }
    9 true (some "Network down") rfl rfl

/-- C2: a run of consecutive transport errors starting with retry count 0.
Each scheduled timer fires `connect(true)` (modelled by `connectBegin`
with `isRetry = true`, which keeps the retry count and clears the timer
via `cleanup`), whose session errors again. Exactly three automatic
reconnect attempts are scheduled, with delays 1000ms, 2000ms and 3000ms;
the fourth error finds the budget exhausted, reports the terminal error
state with no pending timer, and even a further error event schedules
nothing. -/
theorem retry_backoff_then_terminal (s0 : LiveState) (key : String)
    (e1 e2 e3 e4 : Option String) (c1 c2 c3 c4 : ℕ)
    (h0 : s0.retryCount = 0) (hm : s0.mounted = true)
    (hc : s0.currentConnectionId = c1) :
    (onerror c1 e1 s0).retryTimeout = some 1000 ∧
    (onerror c2 e2 (connectBegin (some key) c2 true (onerror c1 e1 s0)).1).retryTimeout
      = some 2000 ∧
    (onerror c3 e3 (connectBegin (some key) c3 true
      (onerror c2 e2 (connectBegin (some key) c2 true (onerror c1 e1 s0)).1)).1).retryTimeout
      = some 3000 ∧
    (onerror c4 e4 (connectBegin (some key) c4 true
      (onerror c3 e3 (connectBegin (some key) c3 true
        (onerror c2 e2 (connectBegin (some key) c2 true (onerror c1 e1 s0)).1)).1)).1).connectionState
      = ConnState.error ∧
    (onerror c4 e4 (connectBegin (some key) c4 true
      (onerror c3 e3 (connectBegin (some key) c3 true
        (onerror c2 e2 (connectBegin (some key) c2 true (onerror c1 e1 s0)).1)).1)).1).retryTimeout
      = none ∧
    (onerror c4 e4 (connectBegin (some key) c4 true
      (onerror c3 e3 (connectBegin (some key) c3 true
        (onerror c2 e2 (connectBegin (some key) c2 true (onerror c1 e1 s0)).1)).1)).1).retryCount
      = MAX_RETRIES ∧
    (onerror c4 e4 (onerror c4 e4 (connectBegin (some key) c4 true
      (onerror c3 e3 (connectBegin (some key) c3 true
        (onerror c2 e2 (connectBegin (some key) c2 true (onerror c1 e1 s0)).1)).1)).1)).retryTimeout
      = none := by
  simp [onerror, connectBegin, cleanup, MAX_RETRIES, h0, hm, hc]

/-- Witness for C2: the concrete run from the freshly mounted initial
state, always erroring with a network message. -/
theorem retry_backoff_then_terminal_witness :
    initState.retryCount = 0 ∧ initState.mounted = true ∧
    initState.currentConnectionId = 0 ∧
    (onerror 0 (some "Network") initState).retryTimeout = some 1000 ∧
    (onerror 1 (some "Network") (connectBegin (some "k") 1 true
      (onerror 0 (some "Network") initState)).1).retryTimeout = some 2000 ∧
    (onerror 2 (some "Network") (connectBegin (some "k") 2 true
      (onerror 1 (some "Network") (connectBegin (some "k") 1 true
        (onerror 0 (some "Network") initState)).1)).1).retryTimeout = some 3000 ∧
    (onerror 3 (some "Network") (connectBegin (some "k") 3 true
      (onerror 2 (some "Network") (connectBegin (some "k") 2 true
        (onerror 1 (some "Network") (connectBegin (some "k") 1 true
          (onerror 0 (some "Network") initState)).1)).1)).1).connectionState
      = ConnState.error := by
  have h := retry_backoff_then_terminal initState "k"
    (some "Network") (some "Network") (some "Network") (some "Network")
    0 1 2 3 rfl rfl rfl
  exact ⟨rfl, rfl, rfl, h.1, h.2.1, h.2.2.1, h.2.2.2.1⟩

/-- C1: an interrupt message for the current epoch stops every handle in
the outstanding playback set, empties the set, and resets the playback
cursor to the output clock's current time `now`; when the pre-interrupt
cursor exceeded `now`, an immediately following audio frame is scheduled
to start at `now`, strictly earlier than the pre-interrupt cursor. -/
theorem interrupt_flushes_playback (s : LiveState) (cid srcId : ℕ)
    (now dur : ℚ) (hm : s.mounted = true) (hc : s.currentConnectionId = cid)
    (hctx : s.outputCtx = some CtxState.running)
    (hpre : now < s.nextStartTime) :
    (onmessage cid none true now s).sources = [] ∧
    (onmessage cid none true now s).stoppedSources
      = s.stoppedSources ++ s.sources ∧
    (onmessage cid none true now s).nextStartTime = now ∧
    (onmessage cid (some (dur, srcId)) false now
      (onmessage cid none true now s)).lastScheduledStart = some now ∧
    now < s.nextStartTime := by
  refine ⟨?_, ?_, ?_, ?_, hpre⟩ <;>
    simp [onmessage, handleInterrupt, handleServerAudio, hm, hc, hctx]

/-- A concrete playing state: two queued sources, cursor at time 10,
connection id 7 current, output context running. -/
def playingState : LiveState :=
  { initState with
      sources := [4, 5]
      nextStartTime := 10
      currentConnectionId := 7
      outputCtx := some CtxState.running }

/-- Witness for C1: from `playingState` (cursor 10, clock at 2): after the
interrupt the set is empty, both handles are stopped, and the next buffer
starts at the clock's time 2, strictly before the old cursor 10. -/
theorem interrupt_flushes_playback_witness :
    playingState.mounted = true ∧
    (2 : ℚ) < playingState.nextStartTime ∧
    (onmessage 7 none true 2 playingState).sources = [] ∧
    (onmessage 7 none true 2 playingState).stoppedSources = [4, 5] ∧
    (onmessage 7 none true 2 playingState).nextStartTime = 2 := by
  have h := interrupt_flushes_playback playingState 7 6 2 1 rfl rfl rfl
    (by norm_num [playingState, initState])
  exact ⟨rfl, by norm_num [playingState, initState], h.1, h.2.1, h.2.2.1⟩

/-- C7: for an audio frame received with no interrupt, for the current
epoch and an open output context, the cursor obeys
`cursor' = max cursor now + dur`; when the cursor is at or ahead of the
clock this is `cursor' = cursor + dur` and the buffer is scheduled to
start exactly at the old cursor (where the previous buffer ends); and for
nonnegative durations the cursor never decreases. -/
theorem cursor_recurrence (s : LiveState) (cid srcId : ℕ) (now dur : ℚ)
    (hm : s.mounted = true) (hc : s.currentConnectionId = cid)
    (hctx : s.outputCtx = some CtxState.running) (hd : 0 ≤ dur) :
    (onmessage cid (some (dur, srcId)) false now s).nextStartTime
      = max s.nextStartTime now + dur ∧
    (now ≤ s.nextStartTime →
      (onmessage cid (some (dur, srcId)) false now s).nextStartTime
        = s.nextStartTime + dur ∧
      (onmessage cid (some (dur, srcId)) false now s).lastScheduledStart
        = some s.nextStartTime) ∧
    s.nextStartTime ≤ (onmessage cid (some (dur, srcId)) false now s).nextStartTime := by
  have key : (onmessage cid (some (dur, srcId)) false now s).nextStartTime
      = max s.nextStartTime now + dur := by
    simp [onmessage, handleServerAudio, hm, hc, hctx]
  have key' : (onmessage cid (some (dur, srcId)) false now s).lastScheduledStart
      = some (max s.nextStartTime now) := by
    simp [onmessage, handleServerAudio, hm, hc, hctx]
  refine ⟨key, fun hnow => ⟨?_, ?_⟩, ?_⟩
  · rw [key, max_eq_left hnow]
  · rw [key', max_eq_left hnow]
  · rw [key]
    calc s.nextStartTime ≤ max s.nextStartTime now := le_max_left _ _
      _ ≤ max s.nextStartTime now + dur := le_add_of_nonneg_right hd

/-- A concrete playing state with cursor 5 and nothing queued, connection
id 7 current, output context running. -/
def cursorState : LiveState :=
  { initState with
      nextStartTime := 5
      currentConnectionId := 7
      outputCtx := some CtxState.running }

/-- Witness for C7: from `cursorState` (cursor 5), clock 3, duration 2:
the buffer starts at 5 and the cursor advances to 7. -/
theorem cursor_recurrence_witness :
    cursorState.mounted = true ∧
    (0 : ℚ) ≤ 2 ∧ (3 : ℚ) ≤ cursorState.nextStartTime ∧
    (onmessage 7 (some ((2 : ℚ), 11)) false 3 cursorState).nextStartTime = 7 ∧
    (onmessage 7 (some ((2 : ℚ), 11)) false 3 cursorState).lastScheduledStart
      = some 5 := by
  have h := cursor_recurrence cursorState 7 11 3 2 rfl rfl rfl (by norm_num)
  have h2 := h.2.1 (by norm_num [cursorState, initState])
  refine ⟨rfl, by norm_num, by norm_num [cursorState, initState], ?_, ?_⟩
  · rw [h2.1]; norm_num [cursorState, initState]
  · rw [h2.2]; norm_num [cursorState, initState]

/-- Helper: the sum of squares of an all-zero frame is 0. -/
theorem sum_sq_of_all_zero (l : List ℚ) (h : ∀ x ∈ l, x = 0) :
    (l.map (fun x => x * x)).sum = 0 := by
  induction l with
  | nil => simp
  | cons a t ih =>
      have ha : a = 0 := h a (by simp)
      have ht : ∀ x ∈ t, x = 0 := fun x hx => h x (by simp [hx])
      simp [ha, ih ht]

/-- Helper: the sum of squares of a full-scale (all-ones) frame is its
length. -/
theorem sum_sq_of_all_one (l : List ℚ) (h : ∀ x ∈ l, x = 1) :
    (l.map (fun x => x * x)).sum = l.length := by
  induction l with
  | nil => simp
  | cons a t ih =>
      have ha : a = 1 := h a (by simp)
      have ht : ∀ x ∈ t, x = 1 := fun x hx => h x (by simp [hx])
      simp [ha, ih ht]
      ring

/-- Helper: the level written by an unmuted `onaudioprocess` frame for
the current connection is exactly `meterUpdate r level`, on every branch
of the send logic. -/
theorem onaudioprocess_level (s : LiveState) (cid : ℕ) (r : ℚ)
    (hmute : s.isMuted = false) (hconn : s.isConnected = true)
    (hc : s.currentConnectionId = cid) :
    (onaudioprocess cid r s).1.audioLevel = meterUpdate r s.audioLevel := by
  cases hsp : s.sessionPromise <;>
    simp [onaudioprocess, hmute, hconn, hc, hsp]

/-- C9: for every processed (unmuted, connected, current-epoch) frame the
displayed level becomes `max (rms * 100) (level * 9/10)`; an all-zero
frame (whose RMS is 0) makes the level decay by exactly the factor 9/10,
and a full-scale all-ones frame (whose RMS is 1) drives the level to the
cap `100 = scale * rms`, given the metering invariant
`0 ≤ level ≤ 100`. -/
theorem level_metering (s : LiveState) (cid : ℕ) (frame : List ℚ) (r : ℚ)
    (hmute : s.isMuted = false) (hconn : s.isConnected = true)
    (hc : s.currentConnectionId = cid)
    (hlo : 0 ≤ s.audioLevel) (hhi : s.audioLevel ≤ 100)
    (hr : IsRMS frame r) :
    (onaudioprocess cid r s).1.audioLevel = max (r * 100) (s.audioLevel * (9 / 10)) ∧
    ((∀ x ∈ frame, x = 0) →
      (onaudioprocess cid r s).1.audioLevel = s.audioLevel * (9 / 10)) ∧
    ((∀ x ∈ frame, x = 1) → frame ≠ [] →
      (onaudioprocess cid r s).1.audioLevel = 100) := by
  have hlevel := onaudioprocess_level s cid r hmute hconn hc
  obtain ⟨hr0, hr2⟩ := hr
  refine ⟨hlevel, ?_, ?_⟩
  · intro hz
    have hms : meanSquare frame = 0 := by
      simp [meanSquare, sum_sq_of_all_zero frame hz]
    have : r = 0 := by
      have := hr2.trans hms
      exact mul_self_eq_zero.mp this
    rw [hlevel, this, meterUpdate, zero_mul]
    exact max_eq_right (by positivity)
  · intro ho hne
    have hlen : (frame.length : ℚ) ≠ 0 := by
      have : frame.length ≠ 0 := by
        simpa [List.length_eq_zero] using hne
      exact_mod_cast this
    have hms : meanSquare frame = 1 := by
      simp [meanSquare, sum_sq_of_all_one frame ho, div_self hlen]
    have hr1 : r = 1 := by
      have h1 : r * r = 1 := hr2.trans hms
      rcases mul_self_eq_one_iff.mp h1 with h | h
      · exact h
      · exfalso; rw [h] at hr0; norm_num at hr0
    rw [hlevel, hr1, meterUpdate, one_mul]
    exact max_eq_left (by nlinarith)

/-- A concrete connected, unmuted state with level 40 and a live session. -/
def meteringState : LiveState :=
  { initState with
      isConnected := true
      currentConnectionId := 3
      sessionPromise := some 1
      audioLevel := 40 }

/-- Witness for C9: from level 40, an all-zero 2-sample frame decays the
level to 36, and a full-scale 2-sample frame caps it at 100. -/
theorem level_metering_witness :
    meteringState.isMuted = false ∧ meteringState.isConnected = true ∧
    (0 : ℚ) ≤ meteringState.audioLevel ∧ meteringState.audioLevel ≤ 100 ∧
    IsRMS [0, 0] 0 ∧ IsRMS [1, 1] 1 ∧
    (onaudioprocess 3 0 meteringState).1.audioLevel = 36 ∧
    (onaudioprocess 3 1 meteringState).1.audioLevel = 100 := by
  have hz := (level_metering meteringState 3 [0, 0] 0 rfl rfl rfl
      (by norm_num [meteringState, initState])
      (by norm_num [meteringState, initState])
      (by constructor <;> norm_num [meanSquare])).2.1
      (by intro x hx; simpa using hx)
  have ho := (level_metering meteringState 3 [1, 1] 1 rfl rfl rfl
      (by norm_num [meteringState, initState])
      (by norm_num [meteringState, initState])
      (by constructor <;> norm_num [meanSquare])).2.2
      (by intro x hx; simpa using hx) (by simp)
  refine ⟨rfl, rfl, by norm_num [meteringState, initState],
    by norm_num [meteringState, initState],
    by constructor <;> norm_num [meanSquare],
    by constructor <;> norm_num [meanSquare], ?_, ?_⟩
  · rw [hz]; norm_num [meteringState, initState]
  · exact ho

/-- A concrete muted state: mute gate active, session connected and live,
displayed level 0. -/
def mutedState : LiveState :=
  { initState with
      isMuted := true
      isConnected := true
      currentConnectionId := 3
      sessionPromise := some 1 }

/-- Counterexample to C3 as stated: a full-scale frame `[1, 1]` (RMS 1)
captured while the mute gate is active. The claim says the frame is still
measured and the displayed level updated via the metering rule, which
would give `max (1 * 100) (0 * 9/10) = 100`; the handler (line 225 of the
source) returns before the RMS computation, so the level stays 0 and the
whole state is untouched. -/
theorem muted_frame_metering_counterexample :
    IsRMS [1, 1] 1 ∧
    mutedState.isMuted = true ∧ mutedState.isConnected = true ∧
    mutedState.audioLevel = 0 ∧
    onaudioprocess 3 1 mutedState = (mutedState, false) ∧
    meterUpdate 1 mutedState.audioLevel = 100 ∧
    (onaudioprocess 3 1 mutedState).1.audioLevel ≠ 100 := by
  refine ⟨⟨by norm_num, by norm_num [meanSquare]⟩, rfl, rfl, rfl, ?_, ?_, ?_⟩
  · simp [onaudioprocess, mutedState, initState]
  · norm_num [meterUpdate, mutedState, initState]
  · simp [onaudioprocess, mutedState, initState]

/-- C3 (amended): while the mute gate is active the capture handler
returns before anything runs — the frame is neither measured (the
displayed level is unchanged) nor passed to the transport send — and on
the first frame after unmuting both metering and transmission resume. -/
theorem mute_gate_amended (s : LiveState) (cid pid : ℕ) (r : ℚ)
    (hc : s.currentConnectionId = cid) (hconn : s.isConnected = true)
    (hsess : s.sessionPromise = some pid) :
    (s.isMuted = true → onaudioprocess cid r s = (s, false)) ∧
    (s.isMuted = false →
      (onaudioprocess cid r s).2 = true ∧
      (onaudioprocess cid r s).1.audioLevel = meterUpdate r s.audioLevel) := by
  constructor
  · intro hmute
    simp [onaudioprocess, hmute]
  · intro hmute
    constructor
    · simp [onaudioprocess, hmute, hconn, hc, hsess]
    · exact onaudioprocess_level s cid r hmute hconn hc

/-- Witness for the amended C3: from the muted state nothing happens and
nothing is sent; the same frame after unmuting is metered and sent. -/
theorem mute_gate_amended_witness :
    mutedState.isMuted = true ∧
    onaudioprocess 3 1 mutedState = (mutedState, false) ∧
    ({ mutedState with isMuted := false } : LiveState).isMuted = false ∧
    (onaudioprocess 3 1 { mutedState with isMuted := false }).2 = true ∧
    (onaudioprocess 3 1 { mutedState with isMuted := false }).1.audioLevel = 100 := by
  have h1 := (mute_gate_amended mutedState 3 1 1 rfl rfl rfl).1 rfl
  have h2 := (mute_gate_amended { mutedState with isMuted := false } 3 1 1
    rfl rfl rfl).2 rfl
  refine ⟨rfl, h1, rfl, h2.1, ?_⟩
  rw [h2.2]
  norm_num [meterUpdate, mutedState, initState]

/-- A concrete superseded state: still mounted, but the current
connection id has moved on to 2 while a suspended `connect` continuation
for id 1 is parked. -/
def staleState : LiveState :=
  { initState with currentConnectionId := 2 }

/-- Counterexample to C4 as stated: the continuation of `connect` resumed
after the audio-context activation awaits (line 170 of the source) checks
only the mounted flag, not the epoch. Resuming the superseded
continuation for connection id 1 while id 2 is current does not abort: it
proceeds to the remote open handshake and overwrites the shared
`sessionPromiseRef` with its own session promise 7. -/
theorem stale_resume_counterexample :
    staleState.mounted = true ∧
    staleState.currentConnectionId ≠ 1 ∧
    staleState.sessionPromise = none ∧
    (connectAfterCtxResume 1 7 staleState).proceed = true ∧
    (connectAfterCtxResume 1 7 staleState).state.sessionPromise = some 7 := by
  refine ⟨rfl, by norm_num [staleState, initState], rfl, ?_, ?_⟩ <;>
    simp [connectAfterCtxResume, staleState, initState]

/-- C4 (amended): the continuation resumed after device-permission
acquisition does re-validate the epoch — when superseded it stops the
tracks of the just-acquired stream and aborts without touching any shared
state; but the continuation resumed after audio-context activation checks
only the mounted flag, so while mounted a superseded resumption still
proceeds into the remote open handshake and overwrites the shared session
promise. -/
theorem epoch_revalidation_partial (s : LiveState) (cid sessId : ℕ)
    (hstale : s.currentConnectionId ≠ cid) :
    connectAfterMedia cid s
      = { state := s, proceed := false, releasedAcquired := true } ∧
    (s.mounted = true →
      (connectAfterCtxResume cid sessId s).proceed = true ∧
      (connectAfterCtxResume cid sessId s).state
        = { s with sessionPromise := some sessId }) := by
  constructor
  · simp [connectAfterMedia, hstale]
  · intro hm
    constructor <;> simp [connectAfterCtxResume, hm]

/-- Witness for the amended C4, at the concrete superseded state. -/
theorem epoch_revalidation_partial_witness :
    staleState.currentConnectionId ≠ 1 ∧ staleState.mounted = true ∧
    connectAfterMedia 1 staleState
      = { state := staleState, proceed := false, releasedAcquired := true } ∧
    (connectAfterCtxResume 1 7 staleState).proceed = true ∧
    (connectAfterCtxResume 1 7 staleState).state
      = { staleState with sessionPromise := some 7 } := by
  have h := epoch_revalidation_partial staleState 1 7
    (by norm_num [staleState, initState])
  have h2 := h.2 rfl
  exact ⟨by norm_num [staleState, initState], rfl, h.1, h2.1, h2.2⟩
